import Mathlib

/-!
Shallow embedding of the gather-shop storefront (order store, payment
endpoint, payment verifier, pricing/cache layer) and proofs of the
spec claims about it.

Conventions of the embedding:
* Python dicts keyed by strings are association lists `List (String × _)`;
  dict assignment is `storeSet`, dict lookup is `storeGet`.
* The random token drawn by `secrets.token_hex(3)` is passed in explicitly
  (`tok`), so identifier generation is a function of its random input.
* `await`ed external calls (ledger lookup, Gelato order placement) are
  passed in as values describing the outcome of the call; a function whose
  result is the same for every outcome provably never depends on that call.
* Monetary values handled as `decimal.Decimal` in the source are `ℚ`.
* Human-readable message strings are an inductive type carrying the values
  interpolated into the corresponding Python f-string.
-/

namespace GatherShop

/-- Order lifecycle states, from `models.OrderStatus`. -/
inductive OrderStatus where
  | awaiting_payment
  | confirmed
  | fulfilling
  | shipped
  | baking
  | ready
deriving DecidableEq, Repr

/-- An order record: the union of the fields of the cake-order dict and the
product-order dict built in `store.create_cake_order` /
`store.create_product_order`.  Fields absent from a given order type stay
`none` (the Python dicts simply omit those keys). -/
structure Order where
  order_id : String
  order_type : String
  status : OrderStatus
  total_bch : String
  payment_address : String
  paid : Bool
  tx_id : Option String
  flavor : Option String := none
  size : Option String := none
  toppings : Option (List String) := none
  message : Option String := none
  product_id : Option String := none
  product_options : Option (List (String × String)) := none
  shipping_address : Option (List (String × String)) := none
  design_url : Option String := none
  gelato_product_uid : Option String := none
  gelato_order_id : Option String := none
  tracking_url : Option String := none
deriving DecidableEq

/-- The in-memory order store `_orders: dict[str, dict]`. -/
abbrev Store := List (String × Order)

/-- Dict lookup `_orders.get(order_id)`. -/
def storeGet : Store → String → Option Order
  | [], _ => none
  | p :: rest, k => if p.1 = k then some p.2 else storeGet rest k

/-- Dict assignment `_orders[order_id] = order` (overwrites the existing
binding for the key, otherwise appends; stores built by this operation
never hold two bindings for one key, matching `dict`). -/
def storeSet : Store → String → Order → Store
  | [], k, v => [(k, v)]
  | p :: rest, k, v =>
      if p.1 = k then (k, v) :: rest else p :: storeSet rest k v

/-- ASCII uppercase for one character (`str.upper` on the hex alphabet the
tokens are drawn from). -/
def pyUpperChar (c : Char) : Char :=
  if ('a' ≤ c && c ≤ 'z') then Char.ofNat (c.toNat - 32) else c

/-- `str.upper` (the tokens are ASCII hex strings). -/
def pyUpper (s : String) : String :=
  String.mk (s.data.map pyUpperChar)

/-- `_gen_id`: `f"{prefix}-{secrets.token_hex(3).upper()}"`, with the random
hex token `tok` made an explicit argument. -/
def _gen_id (pref : String) (tok : String) : String :=
  pref ++ "-" ++ pyUpper tok

/-- `store.create_cake_order`: store a new cake order in awaiting_payment
state.  Returns the order and the updated store. -/
def create_cake_order (tok : String) (flavor : String) (size : String)
    (toppings : List String) (message : String) (total_bch : String)
    (payment_address : String) (s : Store) : Order × Store :=
  let order_id := _gen_id "ORD" tok
  let order : Order :=
    { order_id := order_id
      order_type := "cake"
      status := OrderStatus.awaiting_payment
      flavor := some flavor
      size := some size
      toppings := some toppings
      message := some message
      total_bch := total_bch
      payment_address := payment_address
      paid := false
      tx_id := none }
  (order, storeSet s order_id order)

/-- `store.create_product_order`: store a new product order in
awaiting_payment state. -/
def create_product_order (tok : String) (product_id : String)
    (product_options : List (String × String))
    (shipping_address : List (String × String)) (total_bch : String)
    (payment_address : String) (design_url : String)
    (gelato_product_uid : String) (s : Store) : Order × Store :=
  let order_id := _gen_id "ORD" tok
  let order : Order :=
    { order_id := order_id
      order_type := "product"
      status := OrderStatus.awaiting_payment
      product_id := some product_id
      product_options := some product_options
      shipping_address := some shipping_address
      design_url := some design_url
      gelato_product_uid := some gelato_product_uid
      total_bch := total_bch
      payment_address := payment_address
      paid := false
      tx_id := none
      gelato_order_id := none
      tracking_url := none }
  (order, storeSet s order_id order)

/-- `store.submit_payment`: mark an order as paid.  Returns the updated
order (or `none` if not found) together with the updated store. -/
def submit_payment (s : Store) (order_id : String) (tx_id : String) :
    Option Order × Store :=
  match storeGet s order_id with
  | none => (none, s)
  | some o =>
      let o' := { o with tx_id := some tx_id, paid := true,
                         status := OrderStatus.confirmed }
      (some o', storeSet s order_id o')

/-- `store.update_gelato_info`: store the Gelato order id and move the
order to fulfilling. -/
def update_gelato_info (s : Store) (order_id : String)
    (gelato_order_id : String) : Option Order × Store :=
  match storeGet s order_id with
  | none => (none, s)
  | some o =>
      let o' := { o with gelato_order_id := some gelato_order_id,
                         status := OrderStatus.fulfilling }
      (some o', storeSet s order_id o')

/-- `store.is_tx_used`: `any(o["tx_id"] == tx_id for o in _orders.values())`
(a stored `tx_id` of `None` never equals a submitted string). -/
def is_tx_used : Store → String → Bool
  | [], _ => false
  | p :: rest, tx_id => p.2.tx_id == some tx_id || is_tx_used rest tx_id

-- ---------------------------------------------------------------------------
-- Payment verifier (payment.py)
-- ---------------------------------------------------------------------------

/-- `SATS_PER_BCH = 100_000_000`. -/
def SATS_PER_BCH : ℕ := 100000000

/-- A character allowed by the character class `[0-9a-f]`. -/
def isLowerHexChar (c : Char) : Bool :=
  ('0' ≤ c && c ≤ '9') || ('a' ≤ c && c ≤ 'f')

/-- Truth value of `re.match(r"^[0-9a-f]{64}$", s)`.  Python's `$` matches
at the end of the string or just before a single trailing newline, so the
pattern accepts exactly: 64 lowercase-hex characters, or 64 lowercase-hex
characters followed by one final newline. -/
def txIdPatternMatch (s : String) : Bool :=
  let cs := s.data
  (cs.length == 64 && cs.all isLowerHexChar) ||
    (cs.length == 65 && (cs.take 64).all isLowerHexChar &&
      cs.getLast? == some (Char.ofNat 10))

/-- One entry of a transaction's `outputs` list as used by
`verify_transaction`: `output.get("recipient")` and `output.get("value", 0)`
(value in satoshis). -/
structure TxOutput where
  recipient : String
  value : ℕ
deriving DecidableEq

/-- The transaction data the verifier reads (`tx_data["outputs"]`). -/
structure Tx where
  outputs : List TxOutput
deriving DecidableEq

/-- Outcome of the awaited Blockchair lookup, as observed by
`verify_transaction`:  the request may raise `httpx.HTTPError`, return a
non-200 status, return 200 with no data for the transaction, or return the
transaction. -/
inductive Ledger where
  | netError
  | badStatus (code : ℕ)
  | txMissing
  | found (tx : Tx)
deriving DecidableEq

/-- The message strings built by `verify_transaction`, one constructor per
f-string, carrying the values interpolated into it. -/
inductive VerifyMsg where
  | invalidFormat (tx_id : String) (nchars : ℕ)
  | serviceUnavailable
  | serviceError
  | txNotFound (tx_id : String)
  | insufficient (expected_bch : ℚ) (actual_bch : ℚ)
  | verified
  | noPaymentToShop
deriving DecidableEq

/-- The `for output in outputs` loop of `verify_transaction`: the first
output whose recipient is the shop address decides the outcome, alone. -/
def checkOutputs (shop_addr : String) (expected_bch : ℚ)
    (expected_sats : ℤ) : List TxOutput → Bool × VerifyMsg
  | [] => (false, VerifyMsg.noPaymentToShop)
  | o :: rest =>
      if o.recipient = shop_addr then
        if (o.value : ℤ) ≥ expected_sats then
          (true, VerifyMsg.verified)
        else
          (false, VerifyMsg.insufficient expected_bch
            ((o.value : ℚ) / (SATS_PER_BCH : ℚ)))
      else
        checkOutputs shop_addr expected_bch expected_sats rest

/-- `payment.verify_transaction`.  `shop_addr` is the configured receiving
address (already stripped of the `bitcoincash:` scheme); `ledger` is the
outcome of the awaited Blockchair request.  `int(expected_bch * SATS_PER_BCH)`
truncates toward zero; amounts here are nonnegative, so it is `⌊·⌋`. -/
def verify_transaction (tx_id : String) (expected_bch : ℚ)
    (shop_addr : String) (ledger : Ledger) : Bool × VerifyMsg :=
  if ¬ txIdPatternMatch tx_id then
    (false, VerifyMsg.invalidFormat tx_id tx_id.length)
  else
    let expected_sats : ℤ := ⌊expected_bch * (SATS_PER_BCH : ℚ)⌋
    match ledger with
    | Ledger.netError => (false, VerifyMsg.serviceUnavailable)
    | Ledger.badStatus _ => (false, VerifyMsg.serviceError)
    | Ledger.txMissing => (false, VerifyMsg.txNotFound tx_id)
    | Ledger.found tx => checkOutputs shop_addr expected_bch expected_sats tx.outputs

-- ---------------------------------------------------------------------------
-- Payment endpoint (main.pay_order)
-- ---------------------------------------------------------------------------

/-- The `PaymentResponse` model returned on success. -/
structure PaymentResponse where
  order_id : String
  status : OrderStatus
  tx_id : String
  total_bch : String
deriving DecidableEq

/-- Outcome of `PUT /order/{order_id}/payment`.  `verifyFailed` covers the
402 and 503 rejections (the code picks 503 when the verifier message
mentions "unavailable", 402 otherwise). -/
inductive PayResult where
  | notFound404
  | alreadyPaid409
  | txUsed409
  | verifyFailed (msg : VerifyMsg)
  | success (resp : PaymentResponse)
deriving DecidableEq

/-- Whether a payment submission was accepted. -/
def PayResult.isSuccess : PayResult → Bool
  | PayResult.success _ => true
  | _ => false

/-- `main.pay_order`, as a function of the store and of the outcomes of the
two awaited external calls: `verres` is the result of
`verify_transaction(req.tx_id, Decimal(order["total_bch"]))`, and `gel` the
`(gelato_order_id, message)` result of `place_gelato_order` (consulted only
on the product-order success path).  Returns the HTTP outcome and the store
after the call.  In the source, `updated` aliases the stored dict, so the
response reflects any `update_gelato_info` mutation; here the response is
rebuilt from the final stored order. -/
def pay_order (s : Store) (order_id : String) (tx_id : String)
    (verres : Bool × VerifyMsg) (gel : Option String × String) :
    PayResult × Store :=
  match storeGet s order_id with
  | none => (PayResult.notFound404, s)
  | some order =>
      if order.paid then (PayResult.alreadyPaid409, s)
      else if is_tx_used s tx_id then (PayResult.txUsed409, s)
      else if verres.1 = false then (PayResult.verifyFailed verres.2, s)
      else
        match submit_payment s order_id tx_id with
        -- unreachable: the order was found above and the store is unchanged
        | (none, s1) => (PayResult.notFound404, s1)
        | (some updated, s1) =>
            let afterGelato : Store :=
              if updated.order_type = "product" then
                match gel.1 with
                | some gid => (update_gelato_info s1 order_id gid).2
                | none => s1
              else s1
            let finalOrder :=
              match storeGet afterGelato order_id with
              | some o => o
              | none => updated
            (PayResult.success
              { order_id := finalOrder.order_id
                status := finalOrder.status
                tx_id := tx_id
                total_bch := finalOrder.total_bch },
              afterGelato)

-- ---------------------------------------------------------------------------
-- Cache layer and pricing engine (products.py)
-- ---------------------------------------------------------------------------

/-- A `_cache` entry: `{"d": data, "t": time.time()}`.  Timestamps are ℚ
(Python float seconds). -/
structure CacheEntry (α : Type) where
  d : α
  t : ℚ
deriving DecidableEq

/-- TTL constants from products.py. -/
def CATALOG_TTL : ℚ := 3600

/-- Gelato cost-price TTL. -/
def PRICE_TTL : ℚ := 1800

/-- BCH exchange-rate TTL. -/
def RATE_TTL : ℚ := 300

/-- `products._get_cached`, for one cache key.  `entry` is the current
`_cache.get(key)`; `now` is the `time.time()` read in the freshness test and
`tnew` the one stored after a successful fetch; `fetch` is the outcome of
the awaited `fetch_fn()` (`Except.error` models a raised exception).
Returns (result, the entry stored under the key afterwards, whether
`fetch_fn` was invoked). -/
def _get_cached {α : Type} (entry : Option (CacheEntry α)) (now tnew : ℚ)
    (ttl : ℚ) (fetch : Except Unit α) :
    Except Unit α × Option (CacheEntry α) × Bool :=
  match entry with
  | some e =>
      if now - e.t < ttl then (Except.ok e.d, some e, false)
      else
        match fetch with
        | Except.ok data => (Except.ok data, some ⟨data, tnew⟩, true)
        | Except.error _ => (Except.ok e.d, some e, true)
  | none =>
      match fetch with
      | Except.ok data => (Except.ok data, some ⟨data, tnew⟩, true)
      | Except.error e => (Except.error e, none, true)

/-- Digits of `n` padded on the left with zeros to 6 places. -/
def pad6 (n : ℕ) : String :=
  let s := toString n
  String.mk (List.replicate (6 - s.length) ('0' : Char)) ++ s

/-- `f"{bch:.6f}"`: fixed-point rendering with 6 fractional digits, rounding
to the nearest multiple of 10⁻⁶ (the source formats a binary float; this is
the exact-arithmetic counterpart). -/
def fmt6 (q : ℚ) : String :=
  let n : ℤ := round (q * 1000000)
  let sign := if n < 0 then "-" else ""
  sign ++ toString (n.natAbs / 1000000) ++ "." ++ pad6 (n.natAbs % 1000000)

/-- The slice of a `CATALOG_CONFIG` entry that `get_product_bch_price`
reads (`cfg["margin_pct"]`; the `reference_variant` / caller choices only
select which cache key is consulted and are abstracted into `PricingCtx`). -/
structure ProductCfg where
  margin_pct : ℚ

/-- The upstream/cache context one `get_product_bch_price` call runs in:
the cache entries consulted for the resolved-UID, cost-price and
exchange-rate keys, the outcome each underlying fetch would have, and the
current time.  Monetary floats are modeled as ℚ. -/
structure PricingCtx where
  uidEntry : Option (CacheEntry (Option String))
  priceEntry : Option (CacheEntry (Option ℚ))
  rateEntry : Option (CacheEntry ℚ)
  fetchUid : Except Unit (Option String)
  fetchPrice : Except Unit (Option ℚ)
  fetchRate : Except Unit ℚ
  now : ℚ

/-- `products.get_product_bch_price`:
`BCH price = Gelato USD cost * (1 + margin) / BCH rate`.
`cfg?` is `CATALOG_CONFIG.get(product_id)`.  `_get_gelato_uid`,
`_get_product_price_usd` and `get_bch_rate` are `_get_cached` wrappers, so
an exception raised by an uncached failed fetch propagates
(`Except.error`). -/
def get_product_bch_price (cfg? : Option ProductCfg) (ctx : PricingCtx) :
    Except Unit (Option String) :=
  match cfg? with
  | none => Except.ok none
  | some cfg =>
      match _get_cached ctx.uidEntry ctx.now ctx.now CATALOG_TTL ctx.fetchUid with
      | (Except.error e, _, _) => Except.error e
      | (Except.ok uid?, _, _) =>
          match uid? with
          | none => Except.ok none
          | some uid =>
              if uid = "" then Except.ok none
              else
                match _get_cached ctx.priceEntry ctx.now ctx.now PRICE_TTL
                    ctx.fetchPrice with
                | (Except.error e, _, _) => Except.error e
                | (Except.ok none, _, _) => Except.ok none
                | (Except.ok (some usd_cost), _, _) =>
                    let usd_with_margin := usd_cost * (1 + cfg.margin_pct / 100)
                    match _get_cached ctx.rateEntry ctx.now ctx.now RATE_TTL
                        ctx.fetchRate with
                    | (Except.error e, _, _) => Except.error e
                    | (Except.ok bch_rate, _, _) =>
                        Except.ok (some (fmt6 (usd_with_margin / bch_rate)))

-- ---------------------------------------------------------------------------
-- Reachable stores
-- ---------------------------------------------------------------------------

/-- Store states reachable from the empty `_orders` dict through the
operations that write to it: the two order-creation endpoints and the
payment endpoint (each quantified over its request data, its random id
token, and the outcomes of its awaited external calls). -/
inductive Reach : Store → Prop where
  | init : Reach []
  | createCake (s : Store) (tok flavor size : String) (tops : List String)
      (message total addr : String) (h : Reach s) :
      Reach (create_cake_order tok flavor size tops message total addr s).2
  | createProduct (s : Store) (tok pid : String)
      (opts ship : List (String × String)) (total addr durl guid : String)
      (h : Reach s) :
      Reach (create_product_order tok pid opts ship total addr durl guid s).2
  | pay (s : Store) (oid tx : String) (verres : Bool × VerifyMsg)
      (gel : Option String × String) (h : Reach s) :
      Reach (pay_order s oid tx verres gel).2

/-- No two distinct stored orders hold the same non-null `tx_id`. -/
def txUnique (s : Store) : Prop :=
  ∀ p ∈ s, ∀ q ∈ s, p.1 ≠ q.1 → p.2.tx_id ≠ none → p.2.tx_id ≠ q.2.tx_id

/-- A well-formed 64-character lowercase-hex transaction id, for concrete
test inputs. -/
def txA64 : String :=
  "aaaaaaaaaaaaaaaaaaaaaaaaaaaaaaaaaaaaaaaaaaaaaaaaaaaaaaaaaaaaaaaa"

/-- The 65-character string consisting of `txA64` followed by a newline. -/
def txA64n : String := txA64.push (Char.ofNat 10)

-- ---------------------------------------------------------------------------
-- Store lemmas
-- ---------------------------------------------------------------------------

theorem storeGet_storeSet_self (s : Store) (k : String) (v : Order) :
    storeGet (storeSet s k v) k = some v := by
  induction s with
  | nil => simp [storeSet, storeGet]
  | cons p rest ih =>
      by_cases hp : p.1 = k
      · simp [storeSet, storeGet, hp]
      · simp [storeSet, storeGet, hp, ih]

theorem storeGet_storeSet_ne (s : Store) (k k' : String) (v : Order)
    (h : k' ≠ k) : storeGet (storeSet s k v) k' = storeGet s k' := by
  induction s with
  | nil => simp [storeSet, storeGet, Ne.symm h]
  | cons p rest ih =>
      by_cases hp : p.1 = k
      · simp [storeSet, storeGet, hp, Ne.symm h]
      · by_cases hq : p.1 = k'
        · simp [storeSet, storeGet, hp, hq, h]
        · simp [storeSet, storeGet, hp, hq, ih]

theorem mem_storeSet (s : Store) (k : String) (v : Order)
    (p : String × Order) (hp : p ∈ storeSet s k v) :
    p = (k, v) ∨ p ∈ s := by
  induction s with
  | nil => simpa [storeSet] using hp
  | cons q rest ih =>
      by_cases hq : q.1 = k
      · simp only [storeSet, hq, if_pos rfl] at hp
        rcases List.mem_cons.mp hp with h | h
        · exact Or.inl h
        · exact Or.inr (List.mem_cons.mpr (Or.inr h))
      · simp only [storeSet, hq, if_neg hq] at hp
        rcases List.mem_cons.mp hp with h | h
        · exact Or.inr (List.mem_cons.mpr (Or.inl h))
        · rcases ih h with h' | h'
          · exact Or.inl h'
          · exact Or.inr (List.mem_cons.mpr (Or.inr h'))

theorem mem_of_storeGet (s : Store) (k : String) (o : Order)
    (h : storeGet s k = some o) : (k, o) ∈ s := by
  induction s with
  | nil => simp [storeGet] at h
  | cons p rest ih =>
      by_cases hp : p.1 = k
      · simp only [storeGet, hp, if_pos rfl] at h
        have : p = (k, o) := by
          cases p
          simp_all
        simp [this]
      · simp only [storeGet, if_neg hp] at h
        exact List.mem_cons.mpr (Or.inr (ih h))

theorem is_tx_used_eq_false (s : Store) (tx : String)
    (h : is_tx_used s tx = false) :
    ∀ p ∈ s, p.2.tx_id ≠ some tx := by
  induction s with
  | nil => intro p hp; simp at hp
  | cons q rest ih =>
      intro p hp htx
      simp only [is_tx_used, Bool.or_eq_false_iff] at h
      rcases List.mem_cons.mp hp with rfl | hmem
      · rw [htx] at h
        simp at h
      · exact ih h.2 p hmem htx

theorem is_tx_used_of_mem (s : Store) (tx : String) (p : String × Order)
    (hp : p ∈ s) (htx : p.2.tx_id = some tx) : is_tx_used s tx = true := by
  induction s with
  | nil => simp at hp
  | cons q rest ih =>
      rcases List.mem_cons.mp hp with rfl | hmem
      · simp [is_tx_used, htx]
      · simp [is_tx_used, ih hmem]

theorem txUnique_storeSet_fresh (s : Store) (k : String) (v : Order)
    (hv : v.tx_id = none) (hu : txUnique s) : txUnique (storeSet s k v) := by
  intro p hp q hq hne hptx
  rcases mem_storeSet s k v p hp with rfl | hps
  · exact absurd hv hptx
  · rcases mem_storeSet s k v q hq with rfl | hqs
    · simp only [hv]
      exact hptx
    · exact hu p hps q hqs hne hptx

theorem txUnique_storeSet_tx (s : Store) (k : String) (v : Order)
    (tx : String) (hv : v.tx_id = some tx)
    (hfree : ∀ p ∈ s, p.1 ≠ k → p.2.tx_id ≠ some tx)
    (hu : txUnique s) : txUnique (storeSet s k v) := by
  intro p hp q hq hne hptx
  rcases mem_storeSet s k v p hp with rfl | hps
  · rcases mem_storeSet s k v q hq with rfl | hqs
    · exact absurd rfl hne
    · have hqk : q.1 ≠ k := fun h => hne (h.symm)
      have := hfree q hqs hqk
      simp only [hv]
      exact fun h => this h.symm
  · rcases mem_storeSet s k v q hq with rfl | hqs
    · -- q is the new binding; p is an old entry with a different key
      by_cases hpk : p.1 = k
      · exact absurd hpk hne
      · simp only [hv]
        exact hfree p hps hpk
    · exact hu p hps q hqs hne hptx

theorem txUnique_pay_order (s : Store) (oid tx : String)
    (verres : Bool × VerifyMsg) (gel : Option String × String)
    (hu : txUnique s) : txUnique (pay_order s oid tx verres gel).2 := by
  unfold pay_order
  cases hget : storeGet s oid with
  | none => simpa using hu
  | some order =>
      by_cases hpaid : order.paid
      · simpa [hpaid] using hu
      · by_cases htxu : is_tx_used s tx
        · simpa [hpaid, htxu] using hu
        · by_cases hver : verres.1 = false
          · simpa [hpaid, htxu, hver] using hu
          · have hfree : ∀ p ∈ s, p.2.tx_id ≠ some tx :=
              is_tx_used_eq_false s tx (by simpa using htxu)
            set o' : Order :=
              { order with tx_id := some tx, paid := true,
                           status := OrderStatus.confirmed } with ho'
            have hsub : submit_payment s oid tx = (some o', storeSet s oid o') := by
              simp [submit_payment, hget, ho']
            have hu1 : txUnique (storeSet s oid o') :=
              txUnique_storeSet_tx s oid o' tx rfl
                (fun p hp _ => hfree p hp) hu
            have hfree1 : ∀ p ∈ storeSet s oid o', p.1 ≠ oid →
                p.2.tx_id ≠ some tx := by
              intro p hp hpk
              rcases mem_storeSet s oid o' p hp with rfl | hps
              · exact absurd rfl hpk
              · exact hfree p hps
            dsimp only
            rw [if_neg hpaid, if_neg htxu, if_neg hver, hsub]
            dsimp only
            split
            · split
              · next gid _ =>
                  have hget1 : storeGet (storeSet s oid o') oid = some o' :=
                    storeGet_storeSet_self s oid o'
                  simp only [update_gelato_info, hget1]
                  exact txUnique_storeSet_tx (storeSet s oid o') oid
                    { o' with gelato_order_id := some gid,
                              status := OrderStatus.fulfilling } tx rfl
                    hfree1 hu1
              · exact hu1
            · exact hu1

theorem txUnique_reach (s : Store) (h : Reach s) : txUnique s := by
  induction h with
  | init => intro p hp; simp at hp
  | createCake s tok flavor size tops message total addr h ih =>
      exact txUnique_storeSet_fresh _ _ _ rfl ih
  | createProduct s tok pid opts ship total addr durl guid h ih =>
      exact txUnique_storeSet_fresh _ _ _ rfl ih
  | pay s oid tx verres gel h ih =>
      exact txUnique_pay_order s oid tx verres gel ih

theorem pay_order_rejects_used_tx (s : Store) (a : String) (oa : Order)
    (t : String) (hget : storeGet s a = some oa) (htx : oa.tx_id = some t)
    (b : String) (verres : Bool × VerifyMsg) (gel : Option String × String) :
    (pay_order s b t verres gel).1.isSuccess = false ∧
      (pay_order s b t verres gel).2 = s := by
  have hused : is_tx_used s t = true :=
    is_tx_used_of_mem s t (a, oa) (mem_of_storeGet s a oa hget) htx
  unfold pay_order
  cases hgb : storeGet s b with
  | none => simp [PayResult.isSuccess]
  | some ob =>
      by_cases hpaid : ob.paid
      · simp [hpaid, PayResult.isSuccess]
      · simp [hpaid, hused, PayResult.isSuccess]

-- ---------------------------------------------------------------------------
-- Claim theorems
-- ---------------------------------------------------------------------------

/-- C1: Global transaction-id uniqueness.  In every reachable store state,
no two distinct orders hold the same non-null `tx_id`; and once some stored
order holds `tx_id = t`, a payment submission of `t` for any other order id
is rejected (not a success) and leaves the whole store — in particular the
other order's null `tx_id` — unchanged. -/
theorem C1_global_tx_uniqueness (s : Store) (hs : Reach s) :
    txUnique s ∧
      ∀ a t, (storeGet s a).map Order.tx_id = some (some t) →
        ∀ b, b ≠ a → ∀ verres gel,
          (pay_order s b t verres gel).1.isSuccess = false ∧
            (pay_order s b t verres gel).2 = s := by
  refine ⟨txUnique_reach s hs, ?_⟩
  intro a t hta b _ verres gel
  cases hget : storeGet s a with
  | none => rw [hget] at hta; simp at hta
  | some oa =>
      rw [hget] at hta
      have htx : oa.tx_id = some t := by simpa using hta
      exact pay_order_rejects_used_tx s a oa t hget htx b verres gel

/-- Witness for C1: a concrete reachable store (one cake order created and
then paid with transaction id tx1), for which submitting tx1 against a
different order id is rejected with the store unchanged. -/
theorem C1_global_tx_uniqueness_witness :
    (storeGet
        (pay_order (create_cake_order "aaaaaa" "choc" "l" [] "hi" "1.0" "A" []).2
          "ORD-AAAAAA" "tx1" (true, VerifyMsg.verified) (none, "")).2
        "ORD-AAAAAA").map Order.tx_id = some (some "tx1") ∧
    ("ORD-BBBBBB" : String) ≠ "ORD-AAAAAA" ∧
    (pay_order
        (pay_order (create_cake_order "aaaaaa" "choc" "l" [] "hi" "1.0" "A" []).2
          "ORD-AAAAAA" "tx1" (true, VerifyMsg.verified) (none, "")).2
        "ORD-BBBBBB" "tx1" (true, VerifyMsg.verified) (none, "")).1.isSuccess
      = false :=
  ⟨by decide, by decide,
    ((C1_global_tx_uniqueness _
        (Reach.pay _ "ORD-AAAAAA" "tx1" (true, VerifyMsg.verified) (none, "")
          (Reach.createCake [] "aaaaaa" "choc" "l" [] "hi" "1.0" "A"
            Reach.init))).2
      "ORD-AAAAAA" "tx1" (by decide) "ORD-BBBBBB" (by decide)
      (true, VerifyMsg.verified) (none, "")).1⟩

/-- C3: the `_get_cached` contract.  While `now - timestamp < ttl` the
stored payload is returned without invoking the fetch and the entry is
unchanged; once expired (or absent) the fetch is invoked, a successful
fetch stores the new payload under the later timestamp `tnew`, a failed
fetch returns the stale payload when an entry exists, and the failure
propagates only when no entry exists. -/
theorem C3_cache_contract {α : Type} (e? : Option (CacheEntry α))
    (now tnew ttl : ℚ) (f : Except Unit α) :
    (∀ e, e? = some e → now - e.t < ttl →
      _get_cached e? now tnew ttl f = (Except.ok e.d, some e, false)) ∧
    (∀ e, e? = some e → ¬ now - e.t < ttl →
      (∀ v, f = Except.ok v →
        _get_cached e? now tnew ttl f = (Except.ok v, some ⟨v, tnew⟩, true)) ∧
      (∀ u, f = Except.error u →
        _get_cached e? now tnew ttl f = (Except.ok e.d, some e, true))) ∧
    (e? = none →
      (∀ v, f = Except.ok v →
        _get_cached e? now tnew ttl f = (Except.ok v, some ⟨v, tnew⟩, true)) ∧
      (∀ u, f = Except.error u →
        _get_cached e? now tnew ttl f = (Except.error u, none, true))) := by
  refine ⟨?_, ?_, ?_⟩
  · rintro e rfl hfresh
    simp [_get_cached, hfresh]
  · rintro e rfl hstale
    exact ⟨fun v hv => by simp [_get_cached, hstale, hv],
           fun u hu => by simp [_get_cached, hstale, hu]⟩
  · rintro rfl
    exact ⟨fun v hv => by simp [_get_cached, hv],
           fun u hu => by simp [_get_cached, hu]⟩

/-- Witness for C3 at concrete inputs (over `α := ℕ`): a fresh entry is
served without fetching; an expired entry survives a failed refetch; a
missing entry propagates the failure. -/
theorem C3_cache_contract_witness :
    _get_cached (some ⟨7, 0⟩) 1 1 10 (Except.error ())
        = (Except.ok 7, some (⟨7, 0⟩ : CacheEntry ℕ), false) ∧
    _get_cached (some ⟨7, 0⟩) 20 20 10 (Except.error ())
        = (Except.ok 7, some (⟨7, 0⟩ : CacheEntry ℕ), true) ∧
    _get_cached (some ⟨7, 0⟩) 20 21 10 (Except.ok 9)
        = (Except.ok 9, some (⟨9, 21⟩ : CacheEntry ℕ), true) ∧
    _get_cached (none : Option (CacheEntry ℕ)) 20 20 10 (Except.error ())
        = (Except.error (), none, true) :=
  ⟨(C3_cache_contract (some ⟨7, 0⟩) 1 1 10 (Except.error ())).1 ⟨7, 0⟩ rfl
      (by norm_num),
   ((C3_cache_contract (some ⟨7, 0⟩) 20 20 10 (Except.error ())).2.1 ⟨7, 0⟩ rfl
      (by norm_num)).2 () rfl,
   ((C3_cache_contract (some ⟨7, 0⟩) 20 21 10 (Except.ok 9)).2.1 ⟨7, 0⟩ rfl
      (by norm_num)).1 9 rfl,
   ((C3_cache_contract (none : Option (CacheEntry ℕ)) 20 20 10
      (Except.error ())).2.2 rfl).2 () rfl⟩

/-- C2 counterexample: with the rate cache empty and the exchange-rate
fetch failing (UID resolution and cost price both available),
`get_product_bch_price` propagates the exception instead of returning
none. -/
theorem C2_counterexample :
    get_product_bch_price (some { margin_pct := 40 })
        { uidEntry := none, priceEntry := none, rateEntry := none,
          fetchUid := Except.ok (some "uid1"),
          fetchPrice := Except.ok (some 10),
          fetchRate := Except.error (), now := 0 } = Except.error () ∧
    (Except.error () : Except Unit (Option String)) ≠ Except.ok none :=
  ⟨rfl, fun h => Except.noConfusion h⟩

/-- C2 (amended): `get_product_bch_price` returns `none` (without raising)
when the product id is unknown, when UID resolution succeeds with no
match, or when the cost-price lookup succeeds with no price; but when an
underlying fetch fails with no usable cache entry (here: the UID fetch, or
the exchange-rate fetch), the exception propagates to the caller. -/
theorem C2_price_unavailable_handling (ctx : PricingCtx) (cfg : ProductCfg) :
    (get_product_bch_price none ctx = Except.ok none) ∧
    ((_get_cached ctx.uidEntry ctx.now ctx.now CATALOG_TTL ctx.fetchUid).1
        = Except.ok none →
      get_product_bch_price (some cfg) ctx = Except.ok none) ∧
    (∀ uid, (_get_cached ctx.uidEntry ctx.now ctx.now CATALOG_TTL ctx.fetchUid).1
        = Except.ok (some uid) →
      (_get_cached ctx.priceEntry ctx.now ctx.now PRICE_TTL ctx.fetchPrice).1
        = Except.ok none →
      get_product_bch_price (some cfg) ctx = Except.ok none) ∧
    (∀ u, (_get_cached ctx.uidEntry ctx.now ctx.now CATALOG_TTL ctx.fetchUid).1
        = Except.error u →
      get_product_bch_price (some cfg) ctx = Except.error u) ∧
    (∀ uid cost u,
      (_get_cached ctx.uidEntry ctx.now ctx.now CATALOG_TTL ctx.fetchUid).1
        = Except.ok (some uid) →
      uid ≠ "" →
      (_get_cached ctx.priceEntry ctx.now ctx.now PRICE_TTL ctx.fetchPrice).1
        = Except.ok (some cost) →
      (_get_cached ctx.rateEntry ctx.now ctx.now RATE_TTL ctx.fetchRate).1
        = Except.error u →
      get_product_bch_price (some cfg) ctx = Except.error u) := by
  rcases hU : _get_cached ctx.uidEntry ctx.now ctx.now CATALOG_TTL ctx.fetchUid
    with ⟨rU, eU, bU⟩
  rcases hP : _get_cached ctx.priceEntry ctx.now ctx.now PRICE_TTL ctx.fetchPrice
    with ⟨rP, eP, bP⟩
  rcases hR : _get_cached ctx.rateEntry ctx.now ctx.now RATE_TTL ctx.fetchRate
    with ⟨rR, eR, bR⟩
  refine ⟨rfl, ?_, ?_, ?_, ?_⟩
  · intro h
    simp only [hU] at h
    subst h
    simp [get_product_bch_price, hU]
  · intro uid h hp
    simp only [hU] at h
    simp only [hP] at hp
    subst h
    subst hp
    by_cases he : uid = ""
    · simp [get_product_bch_price, hU, he]
    · simp [get_product_bch_price, hU, hP, he]
  · intro u h
    simp only [hU] at h
    subst h
    simp [get_product_bch_price, hU]
  · intro uid cost u h he hp hr
    simp only [hU] at h
    simp only [hP] at hp
    simp only [hR] at hr
    subst h
    subst hp
    subst hr
    simp [get_product_bch_price, hU, hP, hR, he]

/-- Witness for C2 (amended): the unknown-product case returns none, and
the uncached failed exchange-rate fetch propagates, at one concrete
context. -/
theorem C2_price_unavailable_handling_witness :
    get_product_bch_price none
        { uidEntry := none, priceEntry := none, rateEntry := none,
          fetchUid := Except.ok (some "uid1"),
          fetchPrice := Except.ok (some 10),
          fetchRate := Except.error (), now := 0 } = Except.ok none ∧
    get_product_bch_price (some { margin_pct := 40 })
        { uidEntry := none, priceEntry := none, rateEntry := none,
          fetchUid := Except.ok (some "uid1"),
          fetchPrice := Except.ok (some 10),
          fetchRate := Except.error (), now := 0 } = Except.error () :=
  ⟨(C2_price_unavailable_handling
      { uidEntry := none, priceEntry := none, rateEntry := none,
        fetchUid := Except.ok (some "uid1"),
        fetchPrice := Except.ok (some 10),
        fetchRate := Except.error (), now := 0 } { margin_pct := 40 }).1,
   (C2_price_unavailable_handling
      { uidEntry := none, priceEntry := none, rateEntry := none,
        fetchUid := Except.ok (some "uid1"),
        fetchPrice := Except.ok (some 10),
        fetchRate := Except.error (), now := 0 } { margin_pct := 40 }).2.2.2.2
      "uid1" 10 () rfl (by decide) rfl rfl⟩

/-- C4: conflict rejection.  A payment submission against a stored order
that is already paid yields the already-paid 409 conflict; one whose
transaction id is already present on some stored order yields a 409
conflict (the tx-used conflict when the target order is unpaid).  In every
case the conclusion is one fixed value for all verification and Gelato
outcomes — the ledger is never consulted — and the store is returned
unchanged. -/
theorem C4_conflict_rejection (s : Store) (oid tx : String) (o : Order)
    (hget : storeGet s oid = some o) :
    (o.paid = true → ∀ verres gel,
      pay_order s oid tx verres gel = (PayResult.alreadyPaid409, s)) ∧
    (o.paid = false → is_tx_used s tx = true → ∀ verres gel,
      pay_order s oid tx verres gel = (PayResult.txUsed409, s)) ∧
    (is_tx_used s tx = true → ∀ verres gel,
      pay_order s oid tx verres gel = (PayResult.alreadyPaid409, s) ∨
        pay_order s oid tx verres gel = (PayResult.txUsed409, s)) := by
  refine ⟨?_, ?_, ?_⟩
  · intro hpaid verres gel
    simp [pay_order, hget, hpaid]
  · intro hpaid hused verres gel
    simp [pay_order, hget, hpaid, hused]
  · intro hused verres gel
    by_cases hpaid : o.paid
    · exact Or.inl (by simp [pay_order, hget, hpaid])
    · exact Or.inr (by simp [pay_order, hget, hpaid, hused])

/-- Witness for C4: a store holding one paid order with transaction id txZ;
re-submitting against it conflicts as already-paid, and submitting txZ
against an unpaid order conflicts as tx-used, both leaving the store
unchanged. -/
theorem C4_conflict_rejection_witness :
    pay_order
        [("ORD-P", { order_id := "ORD-P", order_type := "cake",
                     status := OrderStatus.confirmed, total_bch := "1.0",
                     payment_address := "A", paid := true,
                     tx_id := some "txZ" }),
         ("ORD-Q", { order_id := "ORD-Q", order_type := "cake",
                     status := OrderStatus.awaiting_payment,
                     total_bch := "2.0", payment_address := "A",
                     paid := false, tx_id := none })]
        "ORD-P" "txNew" (true, VerifyMsg.verified) (none, "")
      = (PayResult.alreadyPaid409,
        [("ORD-P", { order_id := "ORD-P", order_type := "cake",
                     status := OrderStatus.confirmed, total_bch := "1.0",
                     payment_address := "A", paid := true,
                     tx_id := some "txZ" }),
         ("ORD-Q", { order_id := "ORD-Q", order_type := "cake",
                     status := OrderStatus.awaiting_payment,
                     total_bch := "2.0", payment_address := "A",
                     paid := false, tx_id := none })]) ∧
    pay_order
        [("ORD-P", { order_id := "ORD-P", order_type := "cake",
                     status := OrderStatus.confirmed, total_bch := "1.0",
                     payment_address := "A", paid := true,
                     tx_id := some "txZ" }),
         ("ORD-Q", { order_id := "ORD-Q", order_type := "cake",
                     status := OrderStatus.awaiting_payment,
                     total_bch := "2.0", payment_address := "A",
                     paid := false, tx_id := none })]
        "ORD-Q" "txZ" (true, VerifyMsg.verified) (none, "")
      = (PayResult.txUsed409,
        [("ORD-P", { order_id := "ORD-P", order_type := "cake",
                     status := OrderStatus.confirmed, total_bch := "1.0",
                     payment_address := "A", paid := true,
                     tx_id := some "txZ" }),
         ("ORD-Q", { order_id := "ORD-Q", order_type := "cake",
                     status := OrderStatus.awaiting_payment,
                     total_bch := "2.0", payment_address := "A",
                     paid := false, tx_id := none })]) :=
  ⟨(C4_conflict_rejection _ "ORD-P" "txNew"
      { order_id := "ORD-P", order_type := "cake",
        status := OrderStatus.confirmed, total_bch := "1.0",
        payment_address := "A", paid := true, tx_id := some "txZ" }
      (by decide)).1 rfl (true, VerifyMsg.verified) (none, ""),
   (C4_conflict_rejection _ "ORD-Q" "txZ"
      { order_id := "ORD-Q", order_type := "cake",
        status := OrderStatus.awaiting_payment, total_bch := "2.0",
        payment_address := "A", paid := false, tx_id := none }
      (by decide)).2.1 rfl (by decide)
      (true, VerifyMsg.verified) (none, "")⟩

theorem checkOutputs_append_skip (shop : String) (e : ℚ) (es : ℤ)
    (pre rest : List TxOutput) (hpre : ∀ p ∈ pre, p.recipient ≠ shop) :
    checkOutputs shop e es (pre ++ rest) = checkOutputs shop e es rest := by
  induction pre with
  | nil => rfl
  | cons p ps ih =>
      have hp : p.recipient ≠ shop := hpre p (List.mem_cons_self p ps)
      have := ih (fun q hq => hpre q (List.mem_cons_of_mem p hq))
      simpa [checkOutputs, hp] using this

theorem floor_nat_div_sats (n : ℕ) :
    ⌊((n : ℚ) / (SATS_PER_BCH : ℚ)) * (SATS_PER_BCH : ℚ)⌋ = (n : ℤ) := by
  have hs : ((SATS_PER_BCH : ℕ) : ℚ) ≠ 0 := by
    simp [SATS_PER_BCH]
  rw [div_mul_cancel₀ (n : ℚ) hs]
  exact Int.floor_natCast n

/-- C5: payment amount boundary.  For an expected amount of exactly `n`
satoshis (`n / 10^8` BCH, i.e. at most 8 decimal places) and a ledger
transaction whose first output to the shop address carries value `n`,
verification returns (true, verified); with value `n - 1` (one satoshi
short) it fails as insufficient, the message carrying both the expected
and the actual amount. -/
theorem C5_payment_amount_boundary (tx_id : String)
    (hfmt : txIdPatternMatch tx_id = true) (shop : String) (n : ℕ)
    (hn : 0 < n) (pre post : List TxOutput)
    (hpre : ∀ p ∈ pre, p.recipient ≠ shop) :
    verify_transaction tx_id ((n : ℚ) / (SATS_PER_BCH : ℚ)) shop
        (Ledger.found ⟨pre ++ { recipient := shop, value := n } :: post⟩)
      = (true, VerifyMsg.verified) ∧
    verify_transaction tx_id ((n : ℚ) / (SATS_PER_BCH : ℚ)) shop
        (Ledger.found ⟨pre ++ { recipient := shop, value := n - 1 } :: post⟩)
      = (false, VerifyMsg.insufficient ((n : ℚ) / (SATS_PER_BCH : ℚ))
          (((n - 1 : ℕ) : ℚ) / (SATS_PER_BCH : ℚ))) := by
  have hsats : (⌊((n : ℚ) / (SATS_PER_BCH : ℚ)) * (SATS_PER_BCH : ℚ)⌋ : ℤ)
      = (n : ℤ) := floor_nat_div_sats n
  constructor
  · simp only [verify_transaction, hfmt, Bool.not_true, if_neg,
      Bool.true_eq_false, ite_false]
    rw [checkOutputs_append_skip _ _ _ pre _ hpre]
    simp [checkOutputs, hsats]
  · simp only [verify_transaction, hfmt, Bool.not_true, if_neg,
      Bool.true_eq_false, ite_false]
    rw [checkOutputs_append_skip _ _ _ pre _ hpre]
    have hlt : ¬ ((n - 1 : ℕ) : ℤ) ≥ (n : ℤ) := by
      omega
    simp [checkOutputs, hsats, hlt]

/-- Witness for C5: expected 1 BCH (100000000 satoshis); an output of
exactly 100000000 satoshis verifies, one of 99999999 fails as
insufficient with both amounts reported. -/
theorem C5_payment_amount_boundary_witness :
    verify_transaction txA64 ((100000000 : ℚ) / (SATS_PER_BCH : ℚ)) "addr"
        (Ledger.found ⟨[{ recipient := "addr", value := 100000000 }]⟩)
      = (true, VerifyMsg.verified) ∧
    verify_transaction txA64 ((100000000 : ℚ) / (SATS_PER_BCH : ℚ)) "addr"
        (Ledger.found ⟨[{ recipient := "addr", value := 99999999 }]⟩)
      = (false, VerifyMsg.insufficient ((100000000 : ℚ) / (SATS_PER_BCH : ℚ))
          (((99999999 : ℕ) : ℚ) / (SATS_PER_BCH : ℚ))) := by
  have h := C5_payment_amount_boundary txA64 (by decide) "addr" 100000000
    (by decide) [] [] (by simp)
  simpa using h

/-- C6 divergence witness: the 65-character input `txA64n` (64 lowercase
hex characters plus a trailing newline) passes the `re.match` format check
— Python's `$` matches before a final newline — so `verify_transaction`
proceeds to the ledger and its outcome depends on (and can accept from)
the ledger, instead of being rejected independently of it. -/
theorem C6_trailing_newline_divergence :
    txA64n.length = 65 ∧
    txIdPatternMatch txA64n = true ∧
    verify_transaction txA64n 1 "addr" Ledger.netError
      = (false, VerifyMsg.serviceUnavailable) ∧
    verify_transaction txA64n 1 "addr" Ledger.txMissing
      = (false, VerifyMsg.txNotFound txA64n) ∧
    verify_transaction txA64n 1 "addr"
        (Ledger.found ⟨[{ recipient := "addr", value := 100000000 }]⟩)
      = (true, VerifyMsg.verified) := by
  have hfmt : txIdPatternMatch txA64n = true := by decide
  have hsats : (⌊(1 : ℚ) * (SATS_PER_BCH : ℚ)⌋ : ℤ) = 100000000 := by
    norm_num [SATS_PER_BCH]
  refine ⟨by decide, hfmt, by decide, by decide, ?_⟩
  simp only [verify_transaction, hfmt, Bool.not_true, Bool.true_eq_false,
    ite_false]
  simp only [hsats]
  norm_num [checkOutputs]

/-- C7 counterexample: two outputs to the shop address, the first one
satoshi short and the second exactly sufficient.  The first output in list
order that alone meets the expected amount exists (the second), yet
verification rejects as insufficient — the first address match decides
alone. -/
theorem C7_counterexample :
    verify_transaction txA64 1 "addr"
        (Ledger.found ⟨[{ recipient := "addr", value := 99999999 },
                        { recipient := "addr", value := 100000000 }]⟩)
      = (false, VerifyMsg.insufficient 1
          ((99999999 : ℚ) / (SATS_PER_BCH : ℚ))) ∧
    (verify_transaction txA64 1 "addr"
        (Ledger.found ⟨[{ recipient := "addr", value := 100000000 }]⟩)).1
      = true := by
  have hfmt : txIdPatternMatch txA64 = true := by decide
  have hsats : (⌊(1 : ℚ) * (SATS_PER_BCH : ℚ)⌋ : ℤ) = 100000000 := by
    norm_num [SATS_PER_BCH]
  constructor
  · simp only [verify_transaction, hfmt, Bool.not_true, Bool.true_eq_false,
      ite_false]
    simp only [hsats]
    norm_num [checkOutputs]
  · simp only [verify_transaction, hfmt, Bool.not_true, Bool.true_eq_false,
      ite_false]
    simp only [hsats]
    norm_num [checkOutputs]

/-- C7 (amended): the first output in list order whose recipient is the
shop address decides the outcome alone — verification accepts iff that
output's value meets or exceeds the expected satoshis; later outputs are
never summed in and never consulted. -/
theorem C7_first_shop_output_decides (tx_id : String)
    (hfmt : txIdPatternMatch tx_id = true) (shop : String) (e : ℚ)
    (pre post : List TxOutput) (o : TxOutput)
    (hpre : ∀ p ∈ pre, p.recipient ≠ shop) (ho : o.recipient = shop) :
    verify_transaction tx_id e shop (Ledger.found ⟨pre ++ o :: post⟩)
      = (if (o.value : ℤ) ≥ ⌊e * (SATS_PER_BCH : ℚ)⌋ then
          (true, VerifyMsg.verified)
        else
          (false, VerifyMsg.insufficient e
            ((o.value : ℚ) / (SATS_PER_BCH : ℚ)))) := by
  simp only [verify_transaction, hfmt, Bool.not_true, Bool.true_eq_false,
    ite_false]
  rw [checkOutputs_append_skip _ _ _ pre _ hpre]
  by_cases hv : (o.value : ℤ) ≥ ⌊e * (SATS_PER_BCH : ℚ)⌋
  · simp [checkOutputs, ho, hv]
  · simp [checkOutputs, ho, hv]

/-- Witness for C7 (amended): a sufficient first shop output among decoy
outputs is accepted; later outputs are ignored. -/
theorem C7_first_shop_output_decides_witness :
    verify_transaction txA64 1 "addr"
        (Ledger.found ⟨[{ recipient := "other", value := 5 }] ++
          { recipient := "addr", value := 100000000 } ::
            [{ recipient := "addr", value := 7 }]⟩)
      = (true, VerifyMsg.verified) := by
  have h := C7_first_shop_output_decides txA64 (by decide) "addr" 1
    [{ recipient := "other", value := 5 }]
    [{ recipient := "addr", value := 7 }]
    { recipient := "addr", value := 100000000 } (by decide) rfl
  have hge : ((100000000 : ℕ) : ℤ) ≥ ⌊(1 : ℚ) * (SATS_PER_BCH : ℚ)⌋ := by
    norm_num [SATS_PER_BCH]
  rw [h, if_pos hge]

/-- C9 counterexample: identifier generation draws a random token with no
collision check, so a repeated token reuses the identifier and the second
creation overwrites the first order (same id, first order no longer
stored). -/
theorem C9_counterexample :
    (create_cake_order "abc" "c2" "l" [] "m" "1" "A"
        (create_cake_order "abc" "c1" "l" [] "m" "1" "A" []).2).1.order_id
      = (create_cake_order "abc" "c1" "l" [] "m" "1" "A" []).1.order_id ∧
    storeGet (create_cake_order "abc" "c2" "l" [] "m" "1" "A"
        (create_cake_order "abc" "c1" "l" [] "m" "1" "A" []).2).2
        (create_cake_order "abc" "c1" "l" [] "m" "1" "A" []).1.order_id
      ≠ some (create_cake_order "abc" "c1" "l" [] "m" "1" "A" []).1 := by
  constructor
  · rfl
  · decide

/-- C9 (amended): every creation stores a new order with identifier
`ORD-<token uppercased>`, initial status awaiting_payment, paid=false and
tx_id=null, under its identifier, and leaves every other identifier's
binding unchanged — so whenever the generated identifier is fresh no
existing order is overwritten (identifier freshness itself is only
probabilistic: a repeated random token reuses the identifier, see the
counterexample). -/
theorem C9_creation_initial_state (s : Store) (tok flavor size : String)
    (tops : List String) (message total addr : String) (pid : String)
    (opts ship : List (String × String)) (durl guid : String) :
    ((create_cake_order tok flavor size tops message total addr s).1.order_id
        = _gen_id "ORD" tok ∧
      (create_cake_order tok flavor size tops message total addr s).1.status
        = OrderStatus.awaiting_payment ∧
      (create_cake_order tok flavor size tops message total addr s).1.paid
        = false ∧
      (create_cake_order tok flavor size tops message total addr s).1.tx_id
        = none ∧
      storeGet (create_cake_order tok flavor size tops message total addr s).2
          (_gen_id "ORD" tok)
        = some (create_cake_order tok flavor size tops message total addr s).1 ∧
      ∀ k, k ≠ _gen_id "ORD" tok →
        storeGet (create_cake_order tok flavor size tops message total addr s).2 k
          = storeGet s k) ∧
    ((create_product_order tok pid opts ship total addr durl guid s).1.order_id
        = _gen_id "ORD" tok ∧
      (create_product_order tok pid opts ship total addr durl guid s).1.status
        = OrderStatus.awaiting_payment ∧
      (create_product_order tok pid opts ship total addr durl guid s).1.paid
        = false ∧
      (create_product_order tok pid opts ship total addr durl guid s).1.tx_id
        = none ∧
      (create_product_order tok pid opts ship total addr durl guid s).1.gelato_order_id
        = none ∧
      storeGet (create_product_order tok pid opts ship total addr durl guid s).2
          (_gen_id "ORD" tok)
        = some (create_product_order tok pid opts ship total addr durl guid s).1 ∧
      ∀ k, k ≠ _gen_id "ORD" tok →
        storeGet (create_product_order tok pid opts ship total addr durl guid s).2 k
          = storeGet s k) :=
  ⟨⟨rfl, rfl, rfl, rfl, storeGet_storeSet_self s (_gen_id "ORD" tok) _,
      fun k hk => storeGet_storeSet_ne s (_gen_id "ORD" tok) k _ hk⟩,
    ⟨rfl, rfl, rfl, rfl, rfl, storeGet_storeSet_self s (_gen_id "ORD" tok) _,
      fun k hk => storeGet_storeSet_ne s (_gen_id "ORD" tok) k _ hk⟩⟩

/-- Witness for C9 (amended): a concrete cake order is stored under
ORD-ABC in awaiting_payment state and a different identifier is untouched. -/
theorem C9_creation_initial_state_witness :
    (create_cake_order "abc" "c" "l" [] "m" "1" "A" []).1.status
      = OrderStatus.awaiting_payment ∧
    storeGet (create_cake_order "abc" "c" "l" [] "m" "1" "A" []).2
        (_gen_id "ORD" "abc")
      = some (create_cake_order "abc" "c" "l" [] "m" "1" "A" []).1 ∧
    storeGet (create_cake_order "abc" "c" "l" [] "m" "1" "A" []).2 "ORD-XYZ"
      = storeGet ([] : Store) "ORD-XYZ" :=
  ⟨(C9_creation_initial_state [] "abc" "c" "l" [] "m" "1" "A" "p" [] [] "d"
      "g").1.2.1,
   (C9_creation_initial_state [] "abc" "c" "l" [] "m" "1" "A" "p" [] [] "d"
      "g").1.2.2.2.2.1,
   (C9_creation_initial_state [] "abc" "c" "l" [] "m" "1" "A" "p" [] [] "d"
      "g").1.2.2.2.2.2 "ORD-XYZ" (by decide)⟩

/-- C10: the payment commit survives fulfillment failure.  For a stored,
unpaid product order with an unused transaction id and successful
verification: when Gelato placement fails (returns no id) the order is
stored with tx_id set, paid=true and status confirmed — every other field,
including the null gelato_order_id, and every other order unchanged; when
placement succeeds with id gid the order additionally carries
gelato_order_id=gid and status fulfilling, all other fields and orders
unchanged. -/
theorem C10_payment_commit_survives_fulfillment (s : Store)
    (oid tx : String) (o : Order) (hget : storeGet s oid = some o)
    (hpaid : o.paid = false) (hused : is_tx_used s tx = false)
    (hprod : o.order_type = "product") (vmsg : VerifyMsg) (gmsg : String) :
    (storeGet (pay_order s oid tx (true, vmsg) (none, gmsg)).2 oid
      = some { o with tx_id := some tx, paid := true,
                      status := OrderStatus.confirmed }) ∧
    (∀ k, k ≠ oid →
      storeGet (pay_order s oid tx (true, vmsg) (none, gmsg)).2 k
        = storeGet s k) ∧
    (∀ gid, storeGet (pay_order s oid tx (true, vmsg) (some gid, gmsg)).2 oid
      = some { o with tx_id := some tx, paid := true,
                      status := OrderStatus.fulfilling,
                      gelato_order_id := some gid }) ∧
    (∀ gid k, k ≠ oid →
      storeGet (pay_order s oid tx (true, vmsg) (some gid, gmsg)).2 k
        = storeGet s k) := by
  set o' : Order := { o with tx_id := some tx, paid := true,
                             status := OrderStatus.confirmed } with ho'
  have hsub : submit_payment s oid tx = (some o', storeSet s oid o') := by
    simp [submit_payment, hget, ho']
  have h2none : (pay_order s oid tx (true, vmsg) (none, gmsg)).2
      = storeSet s oid o' := by
    simp [pay_order, hget, hpaid, hused, hsub, hprod]
  have h2some : ∀ gid, (pay_order s oid tx (true, vmsg) (some gid, gmsg)).2
      = storeSet (storeSet s oid o') oid
          { o' with gelato_order_id := some gid,
                    status := OrderStatus.fulfilling } := by
    intro gid
    simp [pay_order, hget, hpaid, hused, hsub, hprod, update_gelato_info,
      storeGet_storeSet_self]
  refine ⟨?_, ?_, ?_, ?_⟩
  · rw [h2none]
    exact storeGet_storeSet_self s oid o'
  · intro k hk
    rw [h2none]
    exact storeGet_storeSet_ne s oid k o' hk
  · intro gid
    rw [h2some gid]
    exact storeGet_storeSet_self (storeSet s oid o') oid _
  · intro gid k hk
    rw [h2some gid, storeGet_storeSet_ne _ oid k _ hk]
    exact storeGet_storeSet_ne s oid k o' hk

/-- Witness for C10: a concrete product order created and paid; with
failed Gelato placement it is stored confirmed with gelato_order_id null,
with successful placement (id G1) it is stored fulfilling with
gelato_order_id G1. -/
theorem C10_payment_commit_survives_fulfillment_witness :
    storeGet (pay_order
        (create_product_order "abc" "t-shirt" [("size", "M")] [("city", "X")]
          "0.1" "A" "du" "guid" []).2
        "ORD-ABC" "txW" (true, VerifyMsg.verified) (none, "err")).2 "ORD-ABC"
      = some { order_id := "ORD-ABC", order_type := "product",
               status := OrderStatus.confirmed, total_bch := "0.1",
               payment_address := "A", paid := true, tx_id := some "txW",
               product_id := some "t-shirt",
               product_options := some [("size", "M")],
               shipping_address := some [("city", "X")],
               design_url := some "du", gelato_product_uid := some "guid",
               gelato_order_id := none, tracking_url := none } ∧
    storeGet (pay_order
        (create_product_order "abc" "t-shirt" [("size", "M")] [("city", "X")]
          "0.1" "A" "du" "guid" []).2
        "ORD-ABC" "txW" (true, VerifyMsg.verified) (some "G1", "ok")).2 "ORD-ABC"
      = some { order_id := "ORD-ABC", order_type := "product",
               status := OrderStatus.fulfilling, total_bch := "0.1",
               payment_address := "A", paid := true, tx_id := some "txW",
               product_id := some "t-shirt",
               product_options := some [("size", "M")],
               shipping_address := some [("city", "X")],
               design_url := some "du", gelato_product_uid := some "guid",
               gelato_order_id := some "G1", tracking_url := none } :=
  ⟨(C10_payment_commit_survives_fulfillment _ "ORD-ABC" "txW"
      { order_id := "ORD-ABC", order_type := "product",
        status := OrderStatus.awaiting_payment, total_bch := "0.1",
        payment_address := "A", paid := false, tx_id := none,
        product_id := some "t-shirt", product_options := some [("size", "M")],
        shipping_address := some [("city", "X")], design_url := some "du",
        gelato_product_uid := some "guid", gelato_order_id := none,
        tracking_url := none }
      (by decide) rfl (by decide) rfl VerifyMsg.verified "err").1,
   (C10_payment_commit_survives_fulfillment _ "ORD-ABC" "txW"
      { order_id := "ORD-ABC", order_type := "product",
        status := OrderStatus.awaiting_payment, total_bch := "0.1",
        payment_address := "A", paid := false, tx_id := none,
        product_id := some "t-shirt", product_options := some [("size", "M")],
        shipping_address := some [("city", "X")], design_url := some "du",
        gelato_product_uid := some "guid", gelato_order_id := none,
        tracking_url := none }
      (by decide) rfl (by decide) rfl VerifyMsg.verified "ok").2.2.1 "G1"⟩

end GatherShop
